import Mathlib

/-!
Verification development for the wechat push-notification server core
(`server/handler.go`): the signature verifier, the envelope dispatcher and
the HTTP request handler `ServeHTTP`, shallowly embedded as pure Lean
functions over explicit request / result records.
-/

namespace Wechat

/-! ### Bytes and SHA-1

`checkSignature` (file `server/verify.go` of the repository, not shown under
`src/`) is modelled from the spec, SHA-1 included: sort the three strings
lexicographically, concatenate with no separator, SHA-1 the bytes, render as
lowercase hex, compare byte-for-byte with the caller-supplied signature.
Machine words are `Nat` reduced mod `2^32`. -/

/-- Truncate to a 32-bit word. -/
def u32 (n : Nat) : Nat := n % 4294967296

/-- Rotate a 32-bit word left by `k` bits. -/
def rotl (k x : Nat) : Nat := u32 ((x <<< k) ||| (x >>> (32 - k)))

/-- Bitwise complement of a 32-bit word. -/
def not32 (x : Nat) : Nat := 4294967295 ^^^ x

/-- `k`-byte big-endian rendering of `n` (most significant byte first). -/
def toBytesBE : Nat → Nat → List Nat
  | 0, _ => []
  | k + 1, n => toBytesBE k (n >>> 8) ++ [n % 256]

/-- Group a byte list into 32-bit big-endian words (16 per SHA-1 block). -/
def bytesToWords : List Nat → List Nat
  | b0 :: b1 :: b2 :: b3 :: rest =>
      (((b0 * 256 + b1) * 256 + b2) * 256 + b3) :: bytesToWords rest
  | _ => []

/-- SHA-1 message padding: append `0x80`, zero bytes up to 56 mod 64, then the
bit length as a 64-bit big-endian integer. -/
def sha1Pad (msg : List Nat) : List Nat :=
  let zeros := (120 - (msg.length + 1) % 64) % 64
  msg ++ [128] ++ List.replicate zeros 0 ++ toBytesBE 8 (msg.length * 8)

/-- Split a padded message into 64-byte blocks (`fuel` bounds the recursion). -/
def splitBlocks : Nat → List Nat → List (List Nat)
  | 0, _ => []
  | _, [] => []
  | fuel + 1, bs => bs.take 64 :: splitBlocks fuel (bs.drop 64)

/-- Extend the 16 message-schedule words of a block to 80 words. -/
def extendWords : Nat → Array Nat → Array Nat
  | 0, ws => ws
  | fuel + 1, ws =>
      let i := ws.size
      let w := rotl 1 ((ws.getD (i - 3) 0 ^^^ ws.getD (i - 8) 0) ^^^
                       (ws.getD (i - 14) 0 ^^^ ws.getD (i - 16) 0))
      extendWords fuel (ws.push w)

/-- One SHA-1 round: update the five-word state with round index `i`. -/
def sha1Round (ws : Array Nat) (st : Nat × Nat × Nat × Nat × Nat) (i : Nat) :
    Nat × Nat × Nat × Nat × Nat :=
  match st with
  | (a, b, c, d, e) =>
    let f :=
      if i < 20 then (b &&& c) ||| (not32 b &&& d)
      else if i < 40 then b ^^^ c ^^^ d
      else if i < 60 then (b &&& c) ||| (b &&& d) ||| (c &&& d)
      else b ^^^ c ^^^ d
    let k :=
      if i < 20 then 1518500249
      else if i < 40 then 1859775393
      else if i < 60 then 2400959708
      else 3395469782
    let temp := u32 (rotl 5 a + f + e + k + ws.getD i 0)
    (temp, a, rotl 30 b, c, d)

/-- Process one 64-byte block, updating the five-word chaining state. -/
def sha1Block (h : Nat × Nat × Nat × Nat × Nat) (block : List Nat) :
    Nat × Nat × Nat × Nat × Nat :=
  let ws := extendWords 64 (bytesToWords block).toArray
  match h, (List.range 80).foldl (sha1Round ws) h with
  | (h0, h1, h2, h3, h4), (a, b, c, d, e) =>
      (u32 (h0 + a), u32 (h1 + b), u32 (h2 + c), u32 (h3 + d), u32 (h4 + e))

/-- SHA-1 digest (20 bytes) of a byte list. -/
def sha1 (msg : List Nat) : List Nat :=
  let padded := sha1Pad msg
  match (splitBlocks padded.length padded).foldl sha1Block
      (1732584193, 4023233417, 2562383102, 271733878, 3285377520) with
  | (h0, h1, h2, h3, h4) =>
      toBytesBE 4 h0 ++ toBytesBE 4 h1 ++ toBytesBE 4 h2 ++
      toBytesBE 4 h3 ++ toBytesBE 4 h4

/-- Lowercase hex digit for `n < 16`. -/
def hexDigit (n : Nat) : Char :=
  if n < 10 then Char.ofNat (48 + n) else Char.ofNat (87 + n)

/-- Lowercase hex rendering of a byte list. -/
def bytesToHex (bs : List Nat) : String :=
  String.mk (bs.foldr (fun b acc => hexDigit (b / 16) :: hexDigit (b % 16) :: acc) [])

/-- UTF-8 encoding of a code point. -/
def utf8Bytes (n : Nat) : List Nat :=
  if n < 128 then [n]
  else if n < 2048 then [192 + n / 64, 128 + n % 64]
  else if n < 65536 then [224 + n / 4096, 128 + n / 64 % 64, 128 + n % 64]
  else [240 + n / 262144, 128 + n / 4096 % 64, 128 + n / 64 % 64, 128 + n % 64]

/-- The bytes of a string (UTF-8), as Go sees it. -/
def strBytes (s : String) : List Nat := (s.data.map (fun c => utf8Bytes c.toNat)).flatten

/-- Byte-wise lexicographic `≤` on byte lists (Go's string ordering). -/
def bytesLe : List Nat → List Nat → Bool
  | [], _ => true
  | _ :: _, [] => false
  | x :: xs, y :: ys => if x < y then true else if y < x then false else bytesLe xs ys

/-- Go's string comparison: byte-wise lexicographic on the UTF-8 bytes. -/
def strLe (a b : String) : Bool := bytesLe (strBytes a) (strBytes b)

/-- Insert a string into a lexicographically sorted list of strings. -/
def insertStr (x : String) : List String → List String
  | [] => [x]
  | y :: ys => if strLe x y then x :: y :: ys else y :: insertStr x ys

/-- Lexicographic insertion sort of a string list (Go `sort.Strings`). -/
def sortStrings (l : List String) : List String := l.foldr insertStr []

/-- Modelled from the spec: the signature expected by the platform — SHA-1 of
the lexicographically sorted, separator-free concatenation of `token`,
`timestamp`, `nonce`, rendered as lowercase hex. -/
def wechatSign (token timestamp nonce : String) : String :=
  bytesToHex (sha1 (strBytes (String.join (sortStrings [token, timestamp, nonce]))))

/-- Modelled from the spec: `checkSignature` of `server/verify.go` (not under
`src/`). Compares the computed hex digest byte-for-byte against the
caller-supplied `signature`; true exactly on equality. The scratch slice of
the Go version only avoids an allocation and does not affect the result, so
it is omitted here. -/
def checkSignature (signature timestamp nonce token : String) : Bool :=
  wechatSign token timestamp nonce == signature

/-! ### Message / event data model

The `message/request` package is not under `src/`; its constants and record
shapes are modelled from the spec.  Wire field values are carried as strings
(the handler only copies them, never computes with them).  The narrow shapes
carry exactly the fields that `ServeHTTP` assigns in each dispatch case. -/

/-- Modelled from the spec: discriminator value for text messages. -/
def MSG_TYPE_TEXT : String := "text"

/-- Modelled from the spec: discriminator value for event messages. -/
def MSG_TYPE_EVENT : String := "event"

/-- Modelled from the spec: discriminator value for link messages. -/
def MSG_TYPE_LINK : String := "link"

/-- Modelled from the spec: discriminator value for voice messages. -/
def MSG_TYPE_VOICE : String := "voice"

/-- Modelled from the spec: discriminator value for location messages. -/
def MSG_TYPE_LOCATION : String := "location"

/-- Modelled from the spec: discriminator value for image messages. -/
def MSG_TYPE_IMAGE : String := "image"

/-- Modelled from the spec: discriminator value for video messages. -/
def MSG_TYPE_VIDEO : String := "video"

/-- Modelled from the spec: event value for menu click events. -/
def EVENT_TYPE_CLICK : String := "CLICK"

/-- Modelled from the spec: event value for menu view events. -/
def EVENT_TYPE_VIEW : String := "VIEW"

/-- Modelled from the spec: event value for location report events. -/
def EVENT_TYPE_LOCATION : String := "LOCATION"

/-- Modelled from the spec: event value for merchant order events. -/
def EVENT_TYPE_MERCHANTORDER : String := "merchant_order"

/-- Modelled from the spec: event value for subscribe events. -/
def EVENT_TYPE_SUBSCRIBE : String := "subscribe"

/-- Modelled from the spec: event value for unsubscribe events. -/
def EVENT_TYPE_UNSUBSCRIBE : String := "unsubscribe"

/-- Modelled from the spec: event value for QR-scan events. -/
def EVENT_TYPE_SCAN : String := "SCAN"

/-- Modelled from the spec: event value for mass-send job completion. -/
def EVENT_TYPE_MASSSENDJOBFINISH : String := "MASSSENDJOBFINISH"

/-- Modelled from the spec: the common head embedded in every wire shape,
carrying the `MsgType` discriminator. -/
structure CommonHead where
  toUserName : String
  fromUserName : String
  createTime : String
  msgType : String
deriving DecidableEq, Repr

/-- The flattened superset decode target (`msgRequest` in the handler): the
union of every field the dispatch cases of `ServeHTTP` read.  `msgID` is the
mass-send wire variant of the message id, distinct from `msgId`. -/
structure Envelope where
  head : CommonHead
  msgId : String
  content : String
  event : String
  eventKey : String
  latitude : String
  longitude : String
  precision : String
  orderId : String
  orderStatus : String
  productId : String
  skuInfo : String
  ticket : String
  msgID : String
  status : String
  totalCount : String
  filterCount : String
  sentCount : String
  errorCount : String
  title : String
  description : String
  url : String
  mediaId : String
  format : String
  recognition : String
  locationX : String
  locationY : String
  scale : String
  label : String
  picURL : String
  thumbMediaId : String
deriving DecidableEq, Repr

/-- Narrow shape for a text message (fields assigned at handler.go:97-101). -/
structure Text where
  head : CommonHead
  msgId : String
  content : String
deriving DecidableEq, Repr

/-- Narrow shape for a menu click event (handler.go:108-112). -/
structure MenuClickEvent where
  head : CommonHead
  event : String
  eventKey : String
deriving DecidableEq, Repr

/-- Narrow shape for a menu view event (handler.go:116-120). -/
structure MenuViewEvent where
  head : CommonHead
  event : String
  eventKey : String
deriving DecidableEq, Repr

/-- Narrow shape for a location report event (handler.go:124-130). -/
structure LocationEvent where
  head : CommonHead
  event : String
  latitude : String
  longitude : String
  precision : String
deriving DecidableEq, Repr

/-- Narrow shape for a merchant order event (handler.go:134-141). -/
structure MerchantOrderEvent where
  head : CommonHead
  event : String
  orderId : String
  orderStatus : String
  productId : String
  skuInfo : String
deriving DecidableEq, Repr

/-- Narrow shape for a plain subscribe event (handler.go:146-149): note it has
no `eventKey` and no `ticket` field. -/
structure SubscribeEvent where
  head : CommonHead
  event : String
deriving DecidableEq, Repr

/-- Narrow shape for a subscribe-by-scan event (handler.go:153-158). -/
structure SubscribeByScanEvent where
  head : CommonHead
  event : String
  eventKey : String
  ticket : String
deriving DecidableEq, Repr

/-- Narrow shape for an unsubscribe event (handler.go:163-166). -/
structure UnsubscribeEvent where
  head : CommonHead
  event : String
deriving DecidableEq, Repr

/-- Narrow shape for a QR-scan event (handler.go:170-175). -/
structure ScanEvent where
  head : CommonHead
  event : String
  eventKey : String
  ticket : String
deriving DecidableEq, Repr

/-- Narrow shape for a mass-send job completion event (handler.go:179-188):
its `msgId` is copied from the envelope's `msgID` wire variant. -/
structure MassSendJobFinishEvent where
  head : CommonHead
  event : String
  msgId : String
  status : String
  totalCount : String
  filterCount : String
  sentCount : String
  errorCount : String
deriving DecidableEq, Repr

/-- Narrow shape for a link message (handler.go:199-205). -/
structure Link where
  head : CommonHead
  msgId : String
  title : String
  description : String
  url : String
deriving DecidableEq, Repr

/-- Narrow shape for a voice message (handler.go:209-215). -/
structure Voice where
  head : CommonHead
  msgId : String
  mediaId : String
  format : String
  recognition : String
deriving DecidableEq, Repr

/-- Narrow shape for a location message (handler.go:219-226). -/
structure Location where
  head : CommonHead
  msgId : String
  locationX : String
  locationY : String
  scale : String
  label : String
deriving DecidableEq, Repr

/-- Narrow shape for an image message (handler.go:230-235). -/
structure Image where
  head : CommonHead
  msgId : String
  mediaId : String
  picURL : String
deriving DecidableEq, Repr

/-- Narrow shape for a video message (handler.go:239-244). -/
structure Video where
  head : CommonHead
  msgId : String
  mediaId : String
  thumbMediaId : String
deriving DecidableEq, Repr

/-! ### The HTTP request model

`ServeHTTP` reads: the method string, `r.URL` (may be nil), the parsed query
(`url.ParseQuery` may fail), and the body stream (`io.Copy` may fail).  These
external inputs are carried in an explicit request record; `urlState` folds
`r.URL == nil` and the parse outcome into one value, and `body` is the
outcome of reading the body to completion. -/

/-- The state of `r.URL` and `url.ParseQuery(r.URL.RawQuery)`: nil URL,
parse failure with its error, or the parsed key/value pairs in query order. -/
inductive URLState
  | noURL
  | malformed (e : String)
  | params (ps : List (String × String))
deriving DecidableEq, Repr

deriving instance DecidableEq for Except

/-- An inbound HTTP request as `ServeHTTP` observes it.  `body` is the result
of draining `r.Body`: an I/O error or the raw bytes. -/
structure HttpRequest where
  method : String
  url : URLState
  body : Except String (List Nat)
deriving DecidableEq, Repr

/-- `url.Values.Get`: the first value listed for `key`, or `""` when the key
is absent. -/
def valuesGet (ps : List (String × String)) (key : String) : String :=
  match ps.find? (fun p => p.fst == key) with
  | some p => p.snd
  | none => ""

/-- One invocation of a callback from `HandlerSetting`: the constructor names
the handler, the argument is the value the handler receives. -/
inductive HandlerCall
  | text (m : Text)
  | menuClick (e : MenuClickEvent)
  | menuView (e : MenuViewEvent)
  | locationEvent (e : LocationEvent)
  | merchantOrder (e : MerchantOrderEvent)
  | subscribe (e : SubscribeEvent)
  | subscribeByScan (e : SubscribeByScanEvent)
  | unsubscribe (e : UnsubscribeEvent)
  | scan (e : ScanEvent)
  | massSendJobFinish (e : MassSendJobFinishEvent)
  | link (m : Link)
  | voice (m : Voice)
  | location (m : Location)
  | image (m : Image)
  | video (m : Video)
  | unknown (body : List Nat)
  | invalid (e : String)
deriving DecidableEq, Repr

/-- The observable effect of one `ServeHTTP` call: the handler callbacks
invoked in order, the bytes the core itself writes to the response, how often
`checkSignature` ran, and the buffer-pool traffic. -/
structure ServeResult where
  calls : List HandlerCall
  written : String
  sigChecks : Nat
  poolAcquires : Nat
  poolReleases : Nat
deriving DecidableEq, Repr

/-- `make([]byte, len(b))` followed by `copy`: a fresh buffer holding the same
bytes.  Value-for-value it is the identity; the point in the Go code is that
the result does not alias the pooled buffer. -/
def bytesCopy (b : List Nat) : List Nat := b

/-- The request router of `ServeHTTP` (handler.go:95-252): the nested switch
on `MsgType` and, for events, on `Event`.  Every case yields exactly one
handler invocation; both default cases hand a copy of the raw body to the
unknown-request handler. -/
def dispatch (env : Envelope) (rawBody : List Nat) : HandlerCall :=
  if env.head.msgType = MSG_TYPE_TEXT then
    .text ⟨env.head, env.msgId, env.content⟩
  else if env.head.msgType = MSG_TYPE_EVENT then
    if env.event = EVENT_TYPE_CLICK then
      .menuClick ⟨env.head, env.event, env.eventKey⟩
    else if env.event = EVENT_TYPE_VIEW then
      .menuView ⟨env.head, env.event, env.eventKey⟩
    else if env.event = EVENT_TYPE_LOCATION then
      .locationEvent ⟨env.head, env.event, env.latitude, env.longitude, env.precision⟩
    else if env.event = EVENT_TYPE_MERCHANTORDER then
      .merchantOrder ⟨env.head, env.event, env.orderId, env.orderStatus,
                      env.productId, env.skuInfo⟩
    else if env.event = EVENT_TYPE_SUBSCRIBE then
      if env.ticket = "" then
        .subscribe ⟨env.head, env.event⟩
      else
        .subscribeByScan ⟨env.head, env.event, env.eventKey, env.ticket⟩
    else if env.event = EVENT_TYPE_UNSUBSCRIBE then
      .unsubscribe ⟨env.head, env.event⟩
    else if env.event = EVENT_TYPE_SCAN then
      .scan ⟨env.head, env.event, env.eventKey, env.ticket⟩
    else if env.event = EVENT_TYPE_MASSSENDJOBFINISH then
      .massSendJobFinish ⟨env.head, env.event, env.msgID, env.status,
                          env.totalCount, env.filterCount, env.sentCount, env.errorCount⟩
    else
      .unknown (bytesCopy rawBody)
  else if env.head.msgType = MSG_TYPE_LINK then
    .link ⟨env.head, env.msgId, env.title, env.description, env.url⟩
  else if env.head.msgType = MSG_TYPE_VOICE then
    .voice ⟨env.head, env.msgId, env.mediaId, env.format, env.recognition⟩
  else if env.head.msgType = MSG_TYPE_LOCATION then
    .location ⟨env.head, env.msgId, env.locationX, env.locationY, env.scale, env.label⟩
  else if env.head.msgType = MSG_TYPE_IMAGE then
    .image ⟨env.head, env.msgId, env.mediaId, env.picURL⟩
  else if env.head.msgType = MSG_TYPE_VIDEO then
    .video ⟨env.head, env.msgId, env.mediaId, env.thumbMediaId⟩
  else
    .unknown (bytesCopy rawBody)

/-- Result of a path that invokes `InvalidRequestHandler` before the buffer
unit is acquired. -/
def earlyInvalid (e : String) : ServeResult :=
  ⟨[.invalid e], "", 0, 0, 0⟩

/-- The POST branch after the buffer unit is acquired (handler.go:77-252):
verify the signature, drain the body, XML-decode it, dispatch.  `decode`
stands for `xml.Unmarshal` into the unit's envelope target.  Returns the
calls made and the one `checkSignature` run. -/
def postCore (signature timestamp nonce token : String)
    (body : Except String (List Nat))
    (decode : List Nat → Except String Envelope) : List HandlerCall :=
  if checkSignature signature timestamp nonce token = false then
    [.invalid "check signature failed"]
  else
    match body with
    | .error e => [.invalid e]
    | .ok raw =>
      match decode raw with
      | .error e => [.invalid e]
      | .ok env => [dispatch env raw]

/-- The POST branch of `ServeHTTP` (handler.go:47-252).  Parameter extraction
happens before the pool is touched; once the unit is acquired the deferred
release runs on every return path, hence the unconditional `1, 1` pool
counts around `postCore`. -/
def servePost (req : HttpRequest) (token : String)
    (decode : List Nat → Except String Envelope) : ServeResult :=
  match req.url with
  | .noURL => earlyInvalid "r.URL == nil"
  | .malformed e => earlyInvalid e
  | .params ps =>
    let signature := valuesGet ps "signature"
    if signature = "" then earlyInvalid "signature is empty"
    else
      let timestamp := valuesGet ps "timestamp"
      if timestamp = "" then earlyInvalid "timestamp is empty"
      else
        let nonce := valuesGet ps "nonce"
        if nonce = "" then earlyInvalid "nonce is empty"
        else
          ⟨postCore signature timestamp nonce token req.body decode, "", 1, 1, 1⟩

/-- The GET branch after the buffer unit is acquired (handler.go:288-293):
verify the signature; on success echo `echostr`, invoking no callback. -/
def getCore (signature timestamp nonce echostr token : String) :
    List HandlerCall × String :=
  if checkSignature signature timestamp nonce token = false then
    ([.invalid "check signature failed"], "")
  else
    ([], echostr)

/-- The GET branch of `ServeHTTP` (handler.go:254-293): extract the four
parameters, then acquire the unit, verify, and echo on success. -/
def serveGet (req : HttpRequest) (token : String) : ServeResult :=
  match req.url with
  | .noURL => earlyInvalid "r.URL == nil"
  | .malformed e => earlyInvalid e
  | .params ps =>
    let signature := valuesGet ps "signature"
    if signature = "" then earlyInvalid "signature is empty"
    else
      let timestamp := valuesGet ps "timestamp"
      if timestamp = "" then earlyInvalid "timestamp is empty"
      else
        let nonce := valuesGet ps "nonce"
        if nonce = "" then earlyInvalid "nonce is empty"
        else
          let echostr := valuesGet ps "echostr"
          if echostr = "" then earlyInvalid "echostr is empty"
          else
            let core := getCore signature timestamp nonce echostr token
            ⟨core.1, core.2, 1, 1, 1⟩

/-- `ServeHTTP` (handler.go:45-295): switch on the method; POST is message
delivery, GET is the handshake, anything else falls off the switch and does
nothing. -/
def serveHTTP (req : HttpRequest) (token : String)
    (decode : List Nat → Except String Envelope) : ServeResult :=
  if req.method = "POST" then servePost req token decode
  else if req.method = "GET" then serveGet req token
  else ⟨[], "", 0, 0, 0⟩

/-! ### Derived predicates and concrete sample inputs -/

/-- The `MsgType` values with a dedicated dispatch case. -/
def knownMsgTypes : List String :=
  [MSG_TYPE_TEXT, MSG_TYPE_EVENT, MSG_TYPE_LINK, MSG_TYPE_VOICE,
   MSG_TYPE_LOCATION, MSG_TYPE_IMAGE, MSG_TYPE_VIDEO]

/-- The `Event` values with a dedicated dispatch case under `MsgType = event`. -/
def knownEventTypes : List String :=
  [EVENT_TYPE_CLICK, EVENT_TYPE_VIEW, EVENT_TYPE_LOCATION, EVENT_TYPE_MERCHANTORDER,
   EVENT_TYPE_SUBSCRIBE, EVENT_TYPE_UNSUBSCRIBE, EVENT_TYPE_SCAN, EVENT_TYPE_MASSSENDJOBFINISH]

/-- Whether the query lists `key` at all (`url.Values` membership). -/
def valuesHas (ps : List (String × String)) (key : String) : Bool :=
  (ps.find? (fun p => p.fst == key)).isSome

/-- A GET request completes the handshake: query parsed, all four parameters
nonempty, and the signature verifies against `token`. -/
def handshakeOk (req : HttpRequest) (token : String) : Bool :=
  match req.url with
  | .params ps =>
    if valuesGet ps "signature" = "" then false
    else if valuesGet ps "timestamp" = "" then false
    else if valuesGet ps "nonce" = "" then false
    else if valuesGet ps "echostr" = "" then false
    else checkSignature (valuesGet ps "signature") (valuesGet ps "timestamp")
           (valuesGet ps "nonce") token
  | _ => false

/-- A fully populated envelope used as the base of concrete test inputs. -/
def baseEnv : Envelope :=
  { head := ⟨"to", "from", "100", "text"⟩, msgId := "1", content := "hi",
    event := "", eventKey := "", latitude := "", longitude := "", precision := "",
    orderId := "", orderStatus := "", productId := "", skuInfo := "", ticket := "",
    msgID := "", status := "", totalCount := "", filterCount := "", sentCount := "",
    errorCount := "", title := "", description := "", url := "", mediaId := "",
    format := "", recognition := "", locationX := "", locationY := "", scale := "",
    label := "", picURL := "", thumbMediaId := "" }

/-- A GET handshake request whose signature is the correct one for token
`"token"`, timestamp `"12345678"`, nonce `"nonce"`. -/
def goodGetReq : HttpRequest :=
  { method := "GET",
    url := .params [("signature", "70f46dc25ee61ed7b696022e9574ceabd07efc98"),
                    ("timestamp", "12345678"), ("nonce", "nonce"), ("echostr", "hello")],
    body := .ok [] }

/-- A GET handshake request whose signature is the correct one for token
`"tok2"`, timestamp `"999"`, nonce `"abc"`. -/
def goodGetReq2 : HttpRequest :=
  { method := "GET",
    url := .params [("signature", "f88327c23441aa09e70e3293e272bb99883570ec"),
                    ("timestamp", "999"), ("nonce", "abc"), ("echostr", "echo-ok")],
    body := .ok [] }

/-- A POST request correctly signed for token `"tkn"`, timestamp `"111"`,
nonce `"nn"`, whose body bytes are `[1, 2, 3]`. -/
def goodPostReq : HttpRequest :=
  { method := "POST",
    url := .params [("signature", "da58801e8ab647e172fbc8ed9c95327cfd1745c4"),
                    ("timestamp", "111"), ("nonce", "nn")],
    body := .ok [1, 2, 3] }

/-- A POST request correctly signed for token `"t"`, timestamp `"1"`,
nonce `"n"`, whose body bytes are `[7, 8]`. -/
def goodPostReq2 : HttpRequest :=
  { method := "POST",
    url := .params [("signature", "398bfe7627050416ec030766223864d8e756c09e"),
                    ("timestamp", "1"), ("nonce", "n")],
    body := .ok [7, 8] }

/-- A POST request correctly signed for token `"tkn"` whose body read fails. -/
def badBodyPostReq : HttpRequest :=
  { method := "POST",
    url := .params [("signature", "da58801e8ab647e172fbc8ed9c95327cfd1745c4"),
                    ("timestamp", "111"), ("nonce", "nn")],
    body := .error "read failed" }

/-- A decode stub that always yields a subscribe event with an empty ticket. -/
def decodeSubscribe : List Nat → Except String Envelope :=
  fun _ => .ok { baseEnv with head := ⟨"to", "from", "100", "event"⟩,
                              event := "subscribe", eventKey := "", ticket := "" }

/-- A decode stub that always yields an envelope with an unrecognized
message type. -/
def decodeFoo : List Nat → Except String Envelope :=
  fun _ => .ok { baseEnv with head := ⟨"to", "from", "100", "foo"⟩ }

/-- A decode stub that always fails. -/
def decodeFail : List Nat → Except String Envelope :=
  fun _ => .error "decode failed"

/-- A POST request whose query lists signature and timestamp but no nonce. -/
def missingParamReq : HttpRequest :=
  { method := "POST",
    url := .params [("signature", "x"), ("timestamp", "1")],
    body := .ok [] }

/-- A POST request with a nil URL. -/
def postNoURLReq : HttpRequest :=
  { method := "POST", url := .noURL, body := .ok [] }

/-- A request with an unsupported HTTP method. -/
def putReq : HttpRequest :=
  { method := "PUT", url := .noURL, body := .ok [] }

/-- A POST request whose signature parameter is present but empty. -/
def emptySigPostReq : HttpRequest :=
  { method := "POST",
    url := .params [("signature", ""), ("timestamp", "1"), ("nonce", "2")],
    body := .ok [] }

/-! ### Sanity vectors for the modelled SHA-1 -/

set_option maxRecDepth 100000

example : bytesToHex (sha1 (strBytes "abc")) = "a9993e364706816aba3e25717850c26c9cd0d89d" := by decide

example : bytesToHex (sha1 []) = "da39a3ee5e6b4b0d3255bfef95601890afd80709" := by decide

example : bytesToHex (sha1 (strBytes (String.join ["", "a", "ab"]))) =
    bytesToHex (sha1 (strBytes "aab")) := by decide

example : checkSignature "70f46dc25ee61ed7b696022e9574ceabd07efc98" "12345678" "nonce" "token" = true := by decide

example : checkSignature "70f46dc25ee61ed7b696022e9574ceabd07efc99" "12345678" "nonce" "token" = false := by decide

/-! ### Helper lemmas -/

/-- `url.Values.Get` of an absent key is the empty string. -/
theorem valuesGet_of_not_has (ps : List (String × String)) (key : String)
    (h : valuesHas ps key = false) : valuesGet ps key = "" := by
  unfold valuesHas at h
  unfold valuesGet
  cases hf : ps.find? (fun p => p.fst == key) with
  | none => rfl
  | some p => rw [hf] at h; simp at h

/-- The POST branch reduces to `postCore` once the three parameters are
nonempty. -/
theorem servePost_eq_core (req : HttpRequest) (token : String)
    (decode : List Nat → Except String Envelope) (ps : List (String × String))
    (hu : req.url = .params ps)
    (hs : valuesGet ps "signature" ≠ "")
    (ht : valuesGet ps "timestamp" ≠ "")
    (hn : valuesGet ps "nonce" ≠ "") :
    servePost req token decode =
      ⟨postCore (valuesGet ps "signature") (valuesGet ps "timestamp")
         (valuesGet ps "nonce") token req.body decode, "", 1, 1, 1⟩ := by
  simp [servePost, hu, hs, ht, hn]

/-- The GET branch reduces to `getCore` once the four parameters are
nonempty. -/
theorem serveGet_eq_core (req : HttpRequest) (token : String)
    (ps : List (String × String))
    (hu : req.url = .params ps)
    (hs : valuesGet ps "signature" ≠ "")
    (ht : valuesGet ps "timestamp" ≠ "")
    (hn : valuesGet ps "nonce" ≠ "")
    (he : valuesGet ps "echostr" ≠ "") :
    serveGet req token =
      ⟨(getCore (valuesGet ps "signature") (valuesGet ps "timestamp")
          (valuesGet ps "nonce") (valuesGet ps "echostr") token).1,
       (getCore (valuesGet ps "signature") (valuesGet ps "timestamp")
          (valuesGet ps "nonce") (valuesGet ps "echostr") token).2, 1, 1, 1⟩ := by
  simp [serveGet, hu, hs, ht, hn, he]

/-- `postCore` reduces to a single dispatch call on the all-success path. -/
theorem postCore_ok (s t n token : String) (body : Except String (List Nat))
    (decode : List Nat → Except String Envelope) (raw : List Nat) (env : Envelope)
    (hsig : checkSignature s t n token = true)
    (hb : body = .ok raw) (hd : decode raw = .ok env) :
    postCore s t n token body decode = [dispatch env raw] := by
  simp [postCore, hsig, hb, hd]

/-- An empty required parameter sends the POST branch to
`InvalidRequestHandler` before the signature is checked. -/
theorem servePost_invalid_of_empty (req : HttpRequest) (token : String)
    (decode : List Nat → Except String Envelope) (ps : List (String × String))
    (hu : req.url = .params ps)
    (h : valuesGet ps "signature" = "" ∨ valuesGet ps "timestamp" = "" ∨
         valuesGet ps "nonce" = "") :
    ∃ e, servePost req token decode = earlyInvalid e := by
  by_cases h1 : valuesGet ps "signature" = ""
  · exact ⟨"signature is empty", by simp [servePost, hu, h1]⟩
  by_cases h2 : valuesGet ps "timestamp" = ""
  · exact ⟨"timestamp is empty", by simp [servePost, hu, h1, h2]⟩
  by_cases h3 : valuesGet ps "nonce" = ""
  · exact ⟨"nonce is empty", by simp [servePost, hu, h1, h2, h3]⟩
  rcases h with h | h | h <;> contradiction

/-- An empty required parameter sends the GET branch to
`InvalidRequestHandler` before the signature is checked. -/
theorem serveGet_invalid_of_empty (req : HttpRequest) (token : String)
    (ps : List (String × String))
    (hu : req.url = .params ps)
    (h : valuesGet ps "signature" = "" ∨ valuesGet ps "timestamp" = "" ∨
         valuesGet ps "nonce" = "" ∨ valuesGet ps "echostr" = "") :
    ∃ e, serveGet req token = earlyInvalid e := by
  by_cases h1 : valuesGet ps "signature" = ""
  · exact ⟨"signature is empty", by simp [serveGet, hu, h1]⟩
  by_cases h2 : valuesGet ps "timestamp" = ""
  · exact ⟨"timestamp is empty", by simp [serveGet, hu, h1, h2]⟩
  by_cases h3 : valuesGet ps "nonce" = ""
  · exact ⟨"nonce is empty", by simp [serveGet, hu, h1, h2, h3]⟩
  by_cases h4 : valuesGet ps "echostr" = ""
  · exact ⟨"echostr is empty", by simp [serveGet, hu, h1, h2, h3, h4]⟩
  rcases h with h | h | h | h <;> contradiction

/-- An unrecognized discriminator lands in the default case of the router,
which hands over a copy of the raw body. -/
theorem dispatch_unrecognized (env : Envelope) (raw : List Nat)
    (h : env.head.msgType ∉ knownMsgTypes ∨
         (env.head.msgType = MSG_TYPE_EVENT ∧ env.event ∉ knownEventTypes)) :
    dispatch env raw = .unknown (bytesCopy raw) := by
  rcases h with h | ⟨he, hev⟩
  · simp only [knownMsgTypes, List.mem_cons, List.not_mem_nil, or_false] at h
    push_neg at h
    obtain ⟨m1, m2, m3, m4, m5, m6, m7⟩ := h
    simp [dispatch, m1, m2, m3, m4, m5, m6, m7]
  · simp only [knownEventTypes, List.mem_cons, List.not_mem_nil, or_false] at hev
    push_neg at hev
    obtain ⟨e1, e2, e3, e4, e5, e6, e7, e8⟩ := hev
    simp [dispatch, he, MSG_TYPE_TEXT, MSG_TYPE_EVENT, e1, e2, e3, e4, e5, e6, e7, e8]

/-- A subscribe event splits on the ticket: empty ticket gives the plain
subscribe shape, otherwise the subscribe-by-scan shape. -/
theorem dispatch_subscribe (env : Envelope) (raw : List Nat)
    (he : env.head.msgType = MSG_TYPE_EVENT)
    (hev : env.event = EVENT_TYPE_SUBSCRIBE) :
    dispatch env raw =
      if env.ticket = "" then .subscribe ⟨env.head, env.event⟩
      else .subscribeByScan ⟨env.head, env.event, env.eventKey, env.ticket⟩ := by
  simp [dispatch, he, hev, MSG_TYPE_TEXT, MSG_TYPE_EVENT, EVENT_TYPE_CLICK,
        EVENT_TYPE_VIEW, EVENT_TYPE_LOCATION, EVENT_TYPE_MERCHANTORDER,
        EVENT_TYPE_SUBSCRIBE]

/-- `postCore` always makes exactly one callback. -/
theorem postCore_length (s t n token : String) (body : Except String (List Nat))
    (decode : List Nat → Except String Envelope) :
    (postCore s t n token body decode).length = 1 := by
  by_cases hsig : checkSignature s t n token = false
  · simp [postCore, hsig]
  · cases body with
    | error e => simp [postCore, hsig]
    | ok raw =>
      cases hd : decode raw with
      | error e => simp [postCore, hsig, hd]
      | ok env => simp [postCore, hsig, hd]

/-- `url.Values.Get` skips a pair whose key differs. -/
theorem valuesGet_cons_of_ne (p : String × String) (ps : List (String × String))
    (key : String) (h : p.fst ≠ key) :
    valuesGet (p :: ps) key = valuesGet ps key := by
  unfold valuesGet
  rw [List.find?_cons_of_neg]
  simp [h]

/-- `url.Values.Get` returns the value of the first pair with the key. -/
theorem valuesGet_cons_of_eq (p : String × String) (ps : List (String × String))
    (key : String) (h : p.fst = key) :
    valuesGet (p :: ps) key = p.snd := by
  unfold valuesGet
  rw [List.find?_cons_of_pos]
  simp [h]

/-- Removing all pairs of a key from the query leaves every other key's
`Get` unchanged. -/
theorem valuesGet_filter_ne (ps : List (String × String)) (k key : String)
    (h : key ≠ k) :
    valuesGet (ps.filter (fun p => p.fst != k)) key = valuesGet ps key := by
  induction ps with
  | nil => rfl
  | cons p ps ih =>
    by_cases hpk : p.fst = k
    · have hcond : (p.fst != k) = false := by simp [hpk]
      rw [List.filter_cons, hcond, if_neg (by simp)]
      rw [ih, valuesGet_cons_of_ne]
      intro hk2
      exact h (hk2 ▸ hpk)
    · have hcond : (p.fst != k) = true := by simp [hpk]
      rw [List.filter_cons, hcond, if_pos rfl]
      by_cases hk2 : p.fst = key
      · rw [valuesGet_cons_of_eq _ _ _ hk2, valuesGet_cons_of_eq _ _ _ hk2]
      · rw [valuesGet_cons_of_ne _ _ _ hk2, valuesGet_cons_of_ne _ _ _ hk2, ih]

/-- After removing all pairs of a key from the query, its `Get` is empty. -/
theorem valuesGet_filter_self (ps : List (String × String)) (k : String) :
    valuesGet (ps.filter (fun p => p.fst != k)) k = "" := by
  induction ps with
  | nil => rfl
  | cons p ps ih =>
    by_cases hpk : p.fst = k
    · have hcond : (p.fst != k) = false := by simp [hpk]
      rw [List.filter_cons, hcond, if_neg (by simp)]
      exact ih
    · have hcond : (p.fst != k) = true := by simp [hpk]
      rw [List.filter_cons, hcond, if_pos rfl]
      rw [valuesGet_cons_of_ne _ _ _ hpk]
      exact ih

/-- If a key's first query value is empty, removing all its pairs changes no
`Get` at all. -/
theorem valuesGet_filter_of_empty (ps : List (String × String)) (k : String)
    (hempty : valuesGet ps k = "") (key : String) :
    valuesGet (ps.filter (fun p => p.fst != k)) key = valuesGet ps key := by
  by_cases hk : key = k
  · rw [hk, valuesGet_filter_self, hempty]
  · exact valuesGet_filter_ne ps k key hk

/-- `checkSignature` succeeds exactly when the supplied signature is the
computed hex digest, byte for byte. -/
theorem checkSignature_true_iff (signature timestamp nonce token : String) :
    checkSignature signature timestamp nonce token = true ↔
      signature = wechatSign token timestamp nonce := by
  unfold checkSignature
  rw [beq_iff_eq, eq_comm]

/-- The correctly computed signature always verifies. -/
theorem checkSignature_correct (token timestamp nonce : String) :
    checkSignature (wechatSign token timestamp nonce) timestamp nonce token = true := by
  unfold checkSignature
  exact beq_self_eq_true _

/-- Any signature other than the computed digest — in particular one of the
wrong length, or the digest with one character changed — fails. -/
theorem checkSignature_false_of_ne (signature timestamp nonce token : String)
    (h : signature ≠ wechatSign token timestamp nonce) :
    checkSignature signature timestamp nonce token = false := by
  unfold checkSignature
  exact beq_eq_false_iff_ne.mpr fun he => h he.symm

/-- The POST branch always makes exactly one callback. -/
theorem servePost_length (req : HttpRequest) (token : String)
    (decode : List Nat → Except String Envelope) :
    (servePost req token decode).calls.length = 1 := by
  rcases hru : req.url with _ | e | ps
  · simp [servePost, hru, earlyInvalid]
  · simp [servePost, hru, earlyInvalid]
  · by_cases h1 : valuesGet ps "signature" = ""
    · simp [servePost, hru, h1, earlyInvalid]
    · by_cases h2 : valuesGet ps "timestamp" = ""
      · simp [servePost, hru, h1, h2, earlyInvalid]
      · by_cases h3 : valuesGet ps "nonce" = ""
        · simp [servePost, hru, h1, h2, h3, earlyInvalid]
        · simp [servePost, hru, h1, h2, h3, postCore_length]

/-- The GET branch either completes the handshake with no callback, or makes
exactly one callback. -/
theorem serveGet_cases (req : HttpRequest) (token : String) :
    ((serveGet req token).calls = [] ∧ handshakeOk req token = true) ∨
    ((serveGet req token).calls.length = 1 ∧ handshakeOk req token = false) := by
  rcases hru : req.url with _ | e | ps
  · right; simp [serveGet, handshakeOk, hru, earlyInvalid]
  · right; simp [serveGet, handshakeOk, hru, earlyInvalid]
  · by_cases h1 : valuesGet ps "signature" = ""
    · right; simp [serveGet, handshakeOk, hru, h1, earlyInvalid]
    · by_cases h2 : valuesGet ps "timestamp" = ""
      · right; simp [serveGet, handshakeOk, hru, h1, h2, earlyInvalid]
      · by_cases h3 : valuesGet ps "nonce" = ""
        · right; simp [serveGet, handshakeOk, hru, h1, h2, h3, earlyInvalid]
        · by_cases h4 : valuesGet ps "echostr" = ""
          · right; simp [serveGet, handshakeOk, hru, h1, h2, h3, h4, earlyInvalid]
          · by_cases hsig : checkSignature (valuesGet ps "signature")
                (valuesGet ps "timestamp") (valuesGet ps "nonce") token = false
            · right
              simp [serveGet, handshakeOk, getCore, hru, h1, h2, h3, h4, hsig]
            · left
              simp only [Bool.not_eq_false] at hsig
              simp [serveGet, handshakeOk, getCore, hru, h1, h2, h3, h4, hsig]

/-! ### The claims -/

/-- C2: a POST request that passes parameter extraction, signature
verification, body read and decode, but whose envelope has an unrecognized
`MsgType`, or `MsgType = event` with an unrecognized `Event`, is routed to
`UnknownRequestHandler` (not `InvalidRequestHandler`) with a byte-for-byte
copy of the raw request body. -/
theorem serveHTTP_unrecognized_discriminator_unknown_copy
    (req : HttpRequest) (token : String)
    (decode : List Nat → Except String Envelope)
    (ps : List (String × String)) (raw : List Nat) (env : Envelope)
    (hm : req.method = "POST") (hu : req.url = .params ps)
    (hs : valuesGet ps "signature" ≠ "")
    (ht : valuesGet ps "timestamp" ≠ "")
    (hn : valuesGet ps "nonce" ≠ "")
    (hsig : checkSignature (valuesGet ps "signature") (valuesGet ps "timestamp")
              (valuesGet ps "nonce") token = true)
    (hb : req.body = .ok raw) (hd : decode raw = .ok env)
    (hdisc : env.head.msgType ∉ knownMsgTypes ∨
             (env.head.msgType = MSG_TYPE_EVENT ∧ env.event ∉ knownEventTypes)) :
    (serveHTTP req token decode).calls = [HandlerCall.unknown (bytesCopy raw)] ∧
    bytesCopy raw = raw := by
  have h1 := servePost_eq_core req token decode ps hu hs ht hn
  have h2 := postCore_ok (valuesGet ps "signature") (valuesGet ps "timestamp")
    (valuesGet ps "nonce") token req.body decode raw env hsig hb hd
  have h3 := dispatch_unrecognized env raw hdisc
  exact ⟨by simp [serveHTTP, hm, h1, h2, h3], rfl⟩

/-- C2 witness: a concrete, correctly signed POST whose envelope has message
type `foo` lands in the unknown handler with a copy of the body `[7, 8]`. -/
theorem serveHTTP_unrecognized_discriminator_unknown_copy_witness :
    (serveHTTP goodPostReq2 "t" decodeFoo).calls = [HandlerCall.unknown (bytesCopy [7, 8])] ∧
    bytesCopy [7, 8] = [7, 8] :=
  serveHTTP_unrecognized_discriminator_unknown_copy goodPostReq2 "t" decodeFoo
    [("signature", "398bfe7627050416ec030766223864d8e756c09e"),
     ("timestamp", "1"), ("nonce", "n")]
    [7, 8] { baseEnv with head := ⟨"to", "from", "100", "foo"⟩ }
    rfl rfl (by decide) (by decide) (by decide) (by decide) rfl rfl (by decide)

/-- C3: a decoded POST envelope with `MsgType = event` and `Event = subscribe`
routes on the ticket: an empty ticket invokes the plain subscribe handler
(whose shape has no event-key and no ticket field), a nonempty ticket invokes
the subscribe-by-scan handler with the event key and ticket copied over. -/
theorem serveHTTP_subscribe_ticket_split
    (req : HttpRequest) (token : String)
    (decode : List Nat → Except String Envelope)
    (ps : List (String × String)) (raw : List Nat) (env : Envelope)
    (hm : req.method = "POST") (hu : req.url = .params ps)
    (hs : valuesGet ps "signature" ≠ "")
    (ht : valuesGet ps "timestamp" ≠ "")
    (hn : valuesGet ps "nonce" ≠ "")
    (hsig : checkSignature (valuesGet ps "signature") (valuesGet ps "timestamp")
              (valuesGet ps "nonce") token = true)
    (hb : req.body = .ok raw) (hd : decode raw = .ok env)
    (he : env.head.msgType = MSG_TYPE_EVENT)
    (hev : env.event = EVENT_TYPE_SUBSCRIBE) :
    (env.ticket = "" →
      (serveHTTP req token decode).calls = [HandlerCall.subscribe ⟨env.head, env.event⟩]) ∧
    (env.ticket ≠ "" →
      (serveHTTP req token decode).calls =
        [HandlerCall.subscribeByScan ⟨env.head, env.event, env.eventKey, env.ticket⟩]) := by
  have h1 := servePost_eq_core req token decode ps hu hs ht hn
  have h2 := postCore_ok (valuesGet ps "signature") (valuesGet ps "timestamp")
    (valuesGet ps "nonce") token req.body decode raw env hsig hb hd
  have h3 := dispatch_subscribe env raw he hev
  constructor
  · intro htk
    simp [serveHTTP, hm, h1, h2, h3, htk]
  · intro htk
    simp [serveHTTP, hm, h1, h2, h3, htk]

/-- C3 witness: a concrete, correctly signed POST decoding to a subscribe
event with an empty ticket invokes the plain subscribe handler. -/
theorem serveHTTP_subscribe_ticket_split_witness :
    (serveHTTP goodPostReq "tkn" decodeSubscribe).calls =
      [HandlerCall.subscribe ⟨⟨"to", "from", "100", "event"⟩, "subscribe"⟩] :=
  (serveHTTP_subscribe_ticket_split goodPostReq "tkn" decodeSubscribe
    [("signature", "da58801e8ab647e172fbc8ed9c95327cfd1745c4"),
     ("timestamp", "111"), ("nonce", "nn")]
    [1, 2, 3] { baseEnv with head := ⟨"to", "from", "100", "event"⟩,
                             event := "subscribe", eventKey := "", ticket := "" }
    rfl rfl (by decide) (by decide) (by decide) (by decide) rfl rfl rfl rfl).1 rfl

/-- C4: a GET or POST request whose parsed query lacks any of `signature`,
`timestamp`, `nonce` (or `echostr` for GET) is routed to
`InvalidRequestHandler` and `checkSignature` is never run. -/
theorem serveHTTP_missing_param_invalid_no_sig_check
    (req : HttpRequest) (token : String)
    (decode : List Nat → Except String Envelope)
    (ps : List (String × String))
    (hu : req.url = .params ps)
    (hmeth : req.method = "POST" ∨ req.method = "GET")
    (hmiss : valuesHas ps "signature" = false ∨ valuesHas ps "timestamp" = false ∨
             valuesHas ps "nonce" = false ∨
             (req.method = "GET" ∧ valuesHas ps "echostr" = false)) :
    (∃ e, (serveHTTP req token decode).calls = [HandlerCall.invalid e]) ∧
    (serveHTTP req token decode).sigChecks = 0 := by
  rcases hmeth with hm | hm
  · have hdisj : valuesGet ps "signature" = "" ∨ valuesGet ps "timestamp" = "" ∨
        valuesGet ps "nonce" = "" := by
      rcases hmiss with h | h | h | ⟨hg, _⟩
      · exact Or.inl (valuesGet_of_not_has _ _ h)
      · exact Or.inr (Or.inl (valuesGet_of_not_has _ _ h))
      · exact Or.inr (Or.inr (valuesGet_of_not_has _ _ h))
      · rw [hm] at hg
        exact absurd hg (by decide)
    obtain ⟨e, hE⟩ := servePost_invalid_of_empty req token decode ps hu hdisj
    exact ⟨⟨e, by simp [serveHTTP, hm, hE, earlyInvalid]⟩,
           by simp [serveHTTP, hm, hE, earlyInvalid]⟩
  · have hdisj : valuesGet ps "signature" = "" ∨ valuesGet ps "timestamp" = "" ∨
        valuesGet ps "nonce" = "" ∨ valuesGet ps "echostr" = "" := by
      rcases hmiss with h | h | h | ⟨_, h⟩
      · exact Or.inl (valuesGet_of_not_has _ _ h)
      · exact Or.inr (Or.inl (valuesGet_of_not_has _ _ h))
      · exact Or.inr (Or.inr (Or.inl (valuesGet_of_not_has _ _ h)))
      · exact Or.inr (Or.inr (Or.inr (valuesGet_of_not_has _ _ h)))
    obtain ⟨e, hE⟩ := serveGet_invalid_of_empty req token ps hu hdisj
    exact ⟨⟨e, by simp [serveHTTP, hm, hE, earlyInvalid]⟩,
           by simp [serveHTTP, hm, hE, earlyInvalid]⟩

/-- C4 witness: a POST whose query has no `nonce` goes to the invalid handler
with zero signature checks. -/
theorem serveHTTP_missing_param_invalid_no_sig_check_witness :
    (∃ e, (serveHTTP missingParamReq "tok" decodeFail).calls = [HandlerCall.invalid e]) ∧
    (serveHTTP missingParamReq "tok" decodeFail).sigChecks = 0 :=
  serveHTTP_missing_param_invalid_no_sig_check missingParamReq "tok" decodeFail
    [("signature", "x"), ("timestamp", "1")] rfl (Or.inl rfl)
    (Or.inr (Or.inr (Or.inl (by decide))))

/-- C6: a POST that passes parameter extraction and signature verification but
whose body read or XML decode fails invokes `InvalidRequestHandler` with that
error, and no other handler. -/
theorem serveHTTP_body_or_decode_failure_invalid
    (req : HttpRequest) (token : String)
    (decode : List Nat → Except String Envelope)
    (ps : List (String × String)) (e : String)
    (hm : req.method = "POST") (hu : req.url = .params ps)
    (hs : valuesGet ps "signature" ≠ "")
    (ht : valuesGet ps "timestamp" ≠ "")
    (hn : valuesGet ps "nonce" ≠ "")
    (hsig : checkSignature (valuesGet ps "signature") (valuesGet ps "timestamp")
              (valuesGet ps "nonce") token = true)
    (hfail : req.body = .error e ∨
             ∃ raw, req.body = .ok raw ∧ decode raw = .error e) :
    (serveHTTP req token decode).calls = [HandlerCall.invalid e] ∧
    (serveHTTP req token decode).written = "" := by
  have h1 := servePost_eq_core req token decode ps hu hs ht hn
  rcases hfail with hb | ⟨raw, hb, hd⟩
  · exact ⟨by simp [serveHTTP, hm, h1, postCore, hsig, hb],
           by simp [serveHTTP, hm, h1]⟩
  · exact ⟨by simp [serveHTTP, hm, h1, postCore, hsig, hb, hd],
           by simp [serveHTTP, hm, h1]⟩

/-- C6 witness: a correctly signed POST whose body read fails invokes only the
invalid handler with the read error. -/
theorem serveHTTP_body_or_decode_failure_invalid_witness :
    (serveHTTP badBodyPostReq "tkn" decodeFail).calls = [HandlerCall.invalid "read failed"] ∧
    (serveHTTP badBodyPostReq "tkn" decodeFail).written = "" :=
  serveHTTP_body_or_decode_failure_invalid badBodyPostReq "tkn" decodeFail
    [("signature", "da58801e8ab647e172fbc8ed9c95327cfd1745c4"),
     ("timestamp", "111"), ("nonce", "nn")] "read failed"
    rfl rfl (by decide) (by decide) (by decide) (by decide) (Or.inl rfl)

/-- C7: a GET with all four parameters present echoes `echostr` verbatim, and
nothing else, when the signature verifies; on verification failure it invokes
`InvalidRequestHandler` and writes nothing. -/
theorem serveHTTP_handshake_echo
    (req : HttpRequest) (token : String)
    (decode : List Nat → Except String Envelope)
    (ps : List (String × String))
    (hm : req.method = "GET") (hu : req.url = .params ps)
    (hs : valuesGet ps "signature" ≠ "")
    (ht : valuesGet ps "timestamp" ≠ "")
    (hn : valuesGet ps "nonce" ≠ "")
    (he : valuesGet ps "echostr" ≠ "") :
    (checkSignature (valuesGet ps "signature") (valuesGet ps "timestamp")
        (valuesGet ps "nonce") token = true →
      (serveHTTP req token decode).calls = [] ∧
      (serveHTTP req token decode).written = valuesGet ps "echostr") ∧
    (checkSignature (valuesGet ps "signature") (valuesGet ps "timestamp")
        (valuesGet ps "nonce") token = false →
      (serveHTTP req token decode).calls = [HandlerCall.invalid "check signature failed"] ∧
      (serveHTTP req token decode).written = "") := by
  have h1 := serveGet_eq_core req token ps hu hs ht hn he
  constructor
  · intro hsig
    exact ⟨by simp [serveHTTP, hm, h1, getCore, hsig],
           by simp [serveHTTP, hm, h1, getCore, hsig]⟩
  · intro hsig
    exact ⟨by simp [serveHTTP, hm, h1, getCore, hsig],
           by simp [serveHTTP, hm, h1, getCore, hsig]⟩

/-- C7 witness: a concrete handshake correctly signed for token `tok2` echoes
`echo-ok` and invokes no callback. -/
theorem serveHTTP_handshake_echo_witness :
    (serveHTTP goodGetReq2 "tok2" decodeFail).calls = [] ∧
    (serveHTTP goodGetReq2 "tok2" decodeFail).written = "echo-ok" :=
  (serveHTTP_handshake_echo goodGetReq2 "tok2" decodeFail
    [("signature", "f88327c23441aa09e70e3293e272bb99883570ec"),
     ("timestamp", "999"), ("nonce", "abc"), ("echostr", "echo-ok")]
    rfl rfl (by decide) (by decide) (by decide) (by decide)).1 (by decide)

/-- C5 counterexample: a successful GET handshake is processed by the handler
yet invokes zero callbacks (it only echoes `echostr`), so "exactly one
callback per request, never zero" fails as stated. -/
theorem serveHTTP_single_callback_counterexample :
    (serveHTTP goodGetReq "token" decodeFail).calls = [] ∧
    (serveHTTP goodGetReq "token" decodeFail).written = "hello" ∧
    ¬ (serveHTTP goodGetReq "token" decodeFail).calls.length = 1 := by
  decide

/-- C5 (amended): at most one callback is ever invoked; every POST invokes
exactly one; a GET invokes none exactly when the handshake succeeds (all four
parameters present and the signature verified), and exactly one otherwise;
any other method invokes none. -/
theorem serveHTTP_at_most_one_callback (req : HttpRequest) (token : String)
    (decode : List Nat → Except String Envelope) :
    (serveHTTP req token decode).calls.length ≤ 1 ∧
    (req.method = "POST" → (serveHTTP req token decode).calls.length = 1) ∧
    (req.method = "GET" →
      ((serveHTTP req token decode).calls = [] ↔ handshakeOk req token = true)) ∧
    (req.method ≠ "POST" → req.method ≠ "GET" →
      (serveHTTP req token decode).calls = []) := by
  by_cases hp : req.method = "POST"
  · have hlen := servePost_length req token decode
    refine ⟨?_, fun _ => ?_, fun hg => ?_, fun hnp _ => absurd hp hnp⟩
    · simp [serveHTTP, hp, hlen]
    · simp [serveHTTP, hp, hlen]
    · rw [hp] at hg
      exact absurd hg (by decide)
  · by_cases hg : req.method = "GET"
    · have hserve : serveHTTP req token decode = serveGet req token := by
        simp [serveHTTP, hp, hg]
      rcases serveGet_cases req token with ⟨hc1, hc2⟩ | ⟨hc1, hc2⟩
      · refine ⟨?_, fun hpost => absurd hpost hp, fun _ => ?_, fun _ hng => absurd hg hng⟩
        · simp [hserve, hc1]
        · simp [hserve, hc1, hc2]
      · refine ⟨?_, fun hpost => absurd hpost hp, fun _ => ?_, fun _ hng => absurd hg hng⟩
        · simp [hserve, hc1]
        · rw [hserve, hc2]
          simp only [Bool.false_eq_true, iff_false]
          intro h
          rw [h] at hc1
          simp at hc1
    · have hserve : serveHTTP req token decode = ⟨[], "", 0, 0, 0⟩ := by
        simp [serveHTTP, hp, hg]
      exact ⟨by simp [hserve], fun h => absurd h hp, fun h => absurd h hg,
             fun _ _ => by simp [hserve]⟩

/-- C5 witness: a concrete POST (nil URL) invokes exactly one callback. -/
theorem serveHTTP_at_most_one_callback_witness :
    (serveHTTP postNoURLReq "tok" decodeFail).calls.length = 1 :=
  (serveHTTP_at_most_one_callback postNoURLReq "tok" decodeFail).2.1 rfl

/-- C8: the buffer unit is released exactly as often as it is acquired on
every execution path (at most once per request), including the early returns
for signature, body-read and decode failures. -/
theorem serveHTTP_pool_release_balanced (req : HttpRequest) (token : String)
    (decode : List Nat → Except String Envelope) :
    (serveHTTP req token decode).poolAcquires = (serveHTTP req token decode).poolReleases ∧
    (serveHTTP req token decode).poolAcquires ≤ 1 := by
  by_cases hp : req.method = "POST"
  · rcases hru : req.url with _ | e | ps
    · simp [serveHTTP, hp, servePost, hru, earlyInvalid]
    · simp [serveHTTP, hp, servePost, hru, earlyInvalid]
    · by_cases h1 : valuesGet ps "signature" = ""
      · simp [serveHTTP, hp, servePost, hru, h1, earlyInvalid]
      · by_cases h2 : valuesGet ps "timestamp" = ""
        · simp [serveHTTP, hp, servePost, hru, h1, h2, earlyInvalid]
        · by_cases h3 : valuesGet ps "nonce" = ""
          · simp [serveHTTP, hp, servePost, hru, h1, h2, h3, earlyInvalid]
          · simp [serveHTTP, hp, servePost, hru, h1, h2, h3]
  · by_cases hg : req.method = "GET"
    · rcases hru : req.url with _ | e | ps
      · simp [serveHTTP, hp, hg, serveGet, hru, earlyInvalid]
      · simp [serveHTTP, hp, hg, serveGet, hru, earlyInvalid]
      · by_cases h1 : valuesGet ps "signature" = ""
        · simp [serveHTTP, hp, hg, serveGet, hru, h1, earlyInvalid]
        · by_cases h2 : valuesGet ps "timestamp" = ""
          · simp [serveHTTP, hp, hg, serveGet, hru, h1, h2, earlyInvalid]
          · by_cases h3 : valuesGet ps "nonce" = ""
            · simp [serveHTTP, hp, hg, serveGet, hru, h1, h2, h3, earlyInvalid]
            · by_cases h4 : valuesGet ps "echostr" = ""
              · simp [serveHTTP, hp, hg, serveGet, hru, h1, h2, h3, h4, earlyInvalid]
              · simp [serveHTTP, hp, hg, serveGet, hru, h1, h2, h3, h4]
    · simp [serveHTTP, hp, hg]

/-- C9: a request whose method is neither GET nor POST falls off the method
switch: nothing is written, no callback is invoked, no state is touched. -/
theorem serveHTTP_other_method_ignored (req : HttpRequest) (token : String)
    (decode : List Nat → Except String Envelope)
    (h1 : req.method ≠ "GET") (h2 : req.method ≠ "POST") :
    serveHTTP req token decode = ⟨[], "", 0, 0, 0⟩ := by
  simp [serveHTTP, h1, h2]

/-- C9 witness: a PUT request produces the empty result. -/
theorem serveHTTP_other_method_ignored_witness :
    serveHTTP putReq "tok" decodeFail = ⟨[], "", 0, 0, 0⟩ :=
  serveHTTP_other_method_ignored putReq "tok" decodeFail (by decide) (by decide)

/-- C10: a required query parameter that is present with an empty first value
is treated exactly like a missing one: the request goes to
`InvalidRequestHandler`, and the handler's result is identical to the result
for the same request with every pair of that key removed from the query. -/
theorem serveHTTP_empty_param_like_missing
    (req : HttpRequest) (token : String)
    (decode : List Nat → Except String Envelope)
    (ps : List (String × String)) (k : String)
    (hu : req.url = .params ps)
    (hk : k = "signature" ∨ k = "timestamp" ∨ k = "nonce" ∨
          (req.method = "GET" ∧ k = "echostr"))
    (hempty : valuesGet ps k = "")
    (hmeth : req.method = "POST" ∨ req.method = "GET") :
    (∃ e, (serveHTTP req token decode).calls = [HandlerCall.invalid e]) ∧
    serveHTTP req token decode =
      serveHTTP { req with url := .params (ps.filter (fun p => p.fst != k)) }
        token decode := by
  have hall := valuesGet_filter_of_empty ps k hempty
  constructor
  · rcases hmeth with hm | hm
    · have hdisj : valuesGet ps "signature" = "" ∨ valuesGet ps "timestamp" = "" ∨
          valuesGet ps "nonce" = "" := by
        rcases hk with rfl | rfl | rfl | ⟨hg, _⟩
        · exact Or.inl hempty
        · exact Or.inr (Or.inl hempty)
        · exact Or.inr (Or.inr hempty)
        · rw [hm] at hg
          exact absurd hg (by decide)
      obtain ⟨e, hE⟩ := servePost_invalid_of_empty req token decode ps hu hdisj
      exact ⟨e, by simp [serveHTTP, hm, hE, earlyInvalid]⟩
    · have hdisj : valuesGet ps "signature" = "" ∨ valuesGet ps "timestamp" = "" ∨
          valuesGet ps "nonce" = "" ∨ valuesGet ps "echostr" = "" := by
        rcases hk with rfl | rfl | rfl | ⟨_, rfl⟩
        · exact Or.inl hempty
        · exact Or.inr (Or.inl hempty)
        · exact Or.inr (Or.inr (Or.inl hempty))
        · exact Or.inr (Or.inr (Or.inr hempty))
      obtain ⟨e, hE⟩ := serveGet_invalid_of_empty req token ps hu hdisj
      exact ⟨e, by simp [serveHTTP, hm, hE, earlyInvalid]⟩
  · rcases hmeth with hm | hm
    · simp only [serveHTTP, hm, if_pos]
      simp [servePost, hu, hall]
    · simp only [serveHTTP, hm]
      norm_num
      simp [serveGet, hu, hall]

/-- C10 witness: a POST whose `signature` parameter is present but empty is
routed to the invalid handler, with the same result as when the parameter is
removed. -/
theorem serveHTTP_empty_param_like_missing_witness :
    (∃ e, (serveHTTP emptySigPostReq "tok" decodeFail).calls = [HandlerCall.invalid e]) ∧
    serveHTTP emptySigPostReq "tok" decodeFail =
      serveHTTP { emptySigPostReq with
        url := .params ([("signature", ""), ("timestamp", "1"), ("nonce", "2")].filter
          (fun p => p.fst != "signature")) } "tok" decodeFail :=
  serveHTTP_empty_param_like_missing emptySigPostReq "tok" decodeFail
    [("signature", ""), ("timestamp", "1"), ("nonce", "2")] "signature"
    rfl (Or.inl rfl) (by decide) (Or.inl rfl)

end Wechat
